import Mathlib

/-!
Verification development for the ribooster session & authentication broker
(backend/app/main.py, backend/app/storage.py, backend/app/models.py,
backend/app/db.py).

The Python source is shallowly embedded: pydantic/ORM records become Lean
structures, module-level mutable dictionaries become explicit state values
threaded through the functions, raised `HTTPException`s become `Except.error`
values carrying the status code and detail string, and Unix timestamps are
integers.  JSON columns (`features_json`, `allowed_users_json`) are modelled
by their parsed values (`Option` of an association list / string list), since
every use in the embedded code paths first parses them.
-/

namespace Ribooster

/-! ### Python string primitives

The embedded handlers use `str.strip()`, `str.lower()`, `str.split()` and
the `in` substring test.  They are implemented here directly over the
character list of a `String` (structural recursion, so concrete inputs
evaluate inside proofs). -/

/-- Python `str.strip()`: remove leading and trailing whitespace. -/
def pyStrip (s : String) : String :=
  ⟨((s.data.dropWhile Char.isWhitespace).reverse.dropWhile Char.isWhitespace).reverse⟩

/-- Python `str.lower()` (ASCII case folding, as `Char.toLower`). -/
def pyLower (s : String) : String :=
  ⟨s.data.map Char.toLower⟩

/-- Helper for `pyWsSplit`: accumulate the current word (reversed). -/
def pyWsSplitAux : List Char → List Char → List String
  | [], acc => if acc.isEmpty then [] else [⟨acc.reverse⟩]
  | c :: cs, acc =>
    if c.isWhitespace then
      if acc.isEmpty then pyWsSplitAux cs []
      else ⟨acc.reverse⟩ :: pyWsSplitAux cs []
    else pyWsSplitAux cs (c :: acc)

/-- Python `str.split()` with no separator: split on whitespace runs,
discarding empty fields. -/
def pyWsSplit (s : String) : List String :=
  pyWsSplitAux s.data []

/-- `HTTPException(status_code, detail)` as raised by the handlers. -/
structure HTTPError where
  status_code : Nat
  detail : String
deriving DecidableEq, Repr

/-- models.py `RIBSession`: the delegated remote credential snapshot.
(pydantic ignores the extra `username=` keyword passed in main.py, so the
stored record has exactly these fields). -/
structure RIBSession where
  access_token : String
  secure_client_role : String
  host : String
  company_code : String
  exp_ts : Int
deriving DecidableEq, Repr

/-- models.py `Session`.  The pydantic model declares `org_id: str` — a
required, non-nullable field — while `company_id` is `Optional[str]`.
main.py's admin login branch nevertheless passes `org_id=None`, and every
consumer (`SessionCtx`, `require_org_user`, the login response) treats
`org_id` as optional.  The embedding therefore carries the value main.py
passes (`Option String`) so that data flow can be expressed, and
`sessionModelAcceptsOrgId` below captures the pydantic v2 validation
constraint, which rejects `org_id=None` at construction (see C1). -/
structure Session where
  token : String
  user_id : String
  org_id : Option String
  company_id : Option String
  username : String
  display_name : String
  is_admin : Bool
  rib_session : Option RIBSession
  created_at : Int
  expires_at : Int
deriving DecidableEq, Repr

/-- models.py declares `Session.org_id : str` (required, non-null), so
pydantic v2 raises a `ValidationError` when a session is constructed with
`org_id=None`: only values satisfying this predicate are constructible as
`Session` pydantic models. -/
def sessionModelAcceptsOrgId (s : Session) : Bool := s.org_id.isSome

/-- main.py `SessionCtx`: the narrowed per-request view of a session. -/
structure SessionCtx where
  token : String
  user_id : String
  username : String
  display_name : String
  is_admin : Bool
  org_id : Option String
  company_id : Option String
deriving DecidableEq, Repr

/-- storage.py `SESSIONS`: the token-keyed session store. -/
def SessionStore : Type := String → Option Session

/-- storage.py `get_session`. -/
def get_session (store : SessionStore) (token : String) : Option Session :=
  store token

/-- storage.py `save_session`: `SESSIONS[sess.token] = sess`. -/
def save_session (store : SessionStore) (s : Session) : SessionStore :=
  fun t => if t = s.token then some s else store t

/-- storage.py `delete_session`: `if token in SESSIONS: del SESSIONS[token]`. -/
def delete_session (store : SessionStore) (token : String) : SessionStore :=
  fun t => if t = token then none else store t

/-- main.py: `ttl = 8 * 3600` inside `_session_from_token`. -/
def SESSION_TTL : Int := 8 * 3600

/-- main.py: `refresh_threshold = 20 * 60` inside `_session_from_token`. -/
def REFRESH_THRESHOLD : Int := 20 * 60

/-- A Python int is falsy exactly when it is 0 (used for `if s.expires_at`). -/
def intTruthy (n : Int) : Bool := n != 0

/-- The `SessionCtx` built from a stored session at the end of
`_session_from_token` (the ctx carries every field except the timestamps
and the delegated credential). -/
def ctxOfSession (s : Session) : SessionCtx :=
  { token := s.token, user_id := s.user_id, username := s.username,
    display_name := s.display_name, is_admin := s.is_admin,
    org_id := s.org_id, company_id := s.company_id }

/-- main.py `_session_from_token`: resolve a bearer token to a `SessionCtx`,
deleting expired sessions and applying the sliding refresh.  Returns the
result together with the (possibly updated) session store. -/
def sessionFromToken (store : SessionStore) (token : String) (now : Int) :
    Except HTTPError SessionCtx × SessionStore :=
  match get_session store token with
  | none => (.error ⟨401, "Invalid session"⟩, store)
  | some s =>
    if intTruthy s.expires_at && decide (s.expires_at < now) then
      (.error ⟨401, "Session expired"⟩, delete_session store token)
    else
      let remaining : Int := if intTruthy s.expires_at then s.expires_at - now else SESSION_TTL
      let store' : SessionStore :=
        if decide (remaining < REFRESH_THRESHOLD) then
          save_session store { s with expires_at := now + SESSION_TTL }
        else store
      (.ok (ctxOfSession s), store')

/-- main.py `require_session`: parse the `Authorization` header
(`Bearer <token>`, whitespace-split, scheme case-insensitive) and delegate to
`_session_from_token`. -/
def require_session (store : SessionStore) (authorization : Option String) (now : Int) :
    Except HTTPError SessionCtx × SessionStore :=
  match authorization with
  | none => (.error ⟨401, "Missing Authorization header"⟩, store)
  | some h =>
    if h = "" then (.error ⟨401, "Missing Authorization header"⟩, store)
    else
      let parts := pyWsSplit h
      if parts.length ≠ 2 || pyLower (parts.headD "") ≠ "bearer" then
        (.error ⟨401, "Invalid Authorization header"⟩, store)
      else
        sessionFromToken store (parts.getD 1 "") now

/-- main.py `require_admin`, applied to an already-resolved context. -/
def require_admin_ctx (ctx : SessionCtx) : Except HTTPError SessionCtx :=
  if !ctx.is_admin then .error ⟨403, "Admin access required"⟩ else .ok ctx

/-- A Python `Optional[str]` is falsy when it is `None` or the empty string. -/
def optStrFalsy : Option String → Bool
  | none => true
  | some s => s == ""

/-- main.py `require_org_user`, applied to an already-resolved context. -/
def require_org_user_ctx (ctx : SessionCtx) : Except HTTPError SessionCtx :=
  if ctx.is_admin then .error ⟨403, "Org user required"⟩
  else if optStrFalsy ctx.org_id || optStrFalsy ctx.company_id then
    .error ⟨400, "Missing org/company on session"⟩
  else .ok ctx

/-- main.py `logout` route: resolve the session dependency, then
`storage.delete_session(ctx.token)` and return ok. -/
def logout (store : SessionStore) (authorization : Option String) (now : Int) :
    Except HTTPError Unit × SessionStore :=
  match require_session store authorization now with
  | (.error e, store') => (.error e, store')
  | (.ok ctx, store') => (.ok (), delete_session store' ctx.token)

/-! ### Tenant directory (db.py rows, as used by main.py)

`DBCompany` is modelled with the per-company license fields that main.py
reads via `getattr(..., default)` and that the admin endpoints write: a
missing/NULL value is `none` and the `getattr` default is applied at each
read site, mirroring the source. -/

/-- A feature-flag dictionary (`features_json`, parsed). The association
list keeps dict semantics: at most one binding per key is ever consulted. -/
abbrev FeatDict := List (String × Bool)

/-- Python `dict.get(k, default)` on a feature dictionary. -/
def dictGetD (d : FeatDict) (k : String) (dflt : Bool) : Bool :=
  match d.find? (fun p => p.1 = k) with
  | some p => p.2
  | none => dflt

/-- Python `dict.__setitem__` on a feature dictionary. -/
def dictInsert (d : FeatDict) (k : String) (v : Bool) : FeatDict :=
  if d.any (fun p => p.1 = k) then
    d.map (fun p => if p.1 = k then (k, v) else p)
  else d ++ [(k, v)]

/-- Python `dict.update(overlay)`. -/
def dictUpdate (d overlay : FeatDict) : FeatDict :=
  overlay.foldl (fun acc p => dictInsert acc p.1 p.2) d

/-- main.py `DEFAULT_SERVICE_FLAGS`. -/
def DEFAULT_SERVICE_FLAGS : FeatDict :=
  [("projects.backup", true), ("ai.helpdesk", true), ("textsql", true)]

/-- db.py `DBOrganization` (the columns the embedded paths read). -/
structure DBOrganizationRec where
  org_id : String
  name : String
  license_plan : Option String
  license_active : Bool
  license_current_period_end : Int
  features_json : Option FeatDict
deriving DecidableEq, Repr

/-- db.py `DBCompany`.  The declared columns are `company_id` through
`features_json`; the table has NO license columns.  main.py nevertheless
reads `license_plan` / `license_active` / `license_current_period_end`
through `getattr(..., default)` and its admin endpoints attempt to set
them, so the embedding carries those three attributes so both the read
sites and the intended writes can be expressed.  On every row actually
constructible from the real schema the `getattr` reads yield the defaults
(`license_active` True, the other two absent) — captured by
`dbCompanyRepresentable` below and decisive for C2. -/
structure DBCompanyRec where
  company_id : String
  org_id : String
  name : String
  code : String
  base_url : String
  rib_company_code : String
  allowed_users_parsed : Option (List String)
  ai_api_key : Option String
  features_json : Option FeatDict
  license_plan : Option String
  license_active : Bool
  license_current_period_end : Option Int
deriving DecidableEq, Repr

/-- A `DBCompanyRec` is representable in the real schema iff its
license attributes are the `getattr` defaults: db.py's `DBCompany` declares
no license columns, so on a real ORM row `getattr(comp, "license_active",
True)` is always `True` and `getattr(comp, "license_current_period_end",
None)` / `getattr(comp, "license_plan", ...)` always fall back. -/
def dbCompanyRepresentable (c : DBCompanyRec) : Bool :=
  c.license_plan.isNone && c.license_active && c.license_current_period_end.isNone

/-- The relational tenant directory consumed via `get_db`. -/
structure DB where
  orgs : List DBOrganizationRec
  companies : List DBCompanyRec
deriving DecidableEq, Repr

/-- models.py `License`. -/
structure License where
  plan : String
  active : Bool
  current_period_end : Int
deriving DecidableEq, Repr

/-- models.py `Organization`. -/
structure Organization where
  org_id : String
  name : String
  license : License
  features : FeatDict
deriving DecidableEq, Repr

/-- models.py `Company`.  pydantic drops the extra `name=`, `license=` and
`features=` keywords main.py passes, so only these fields are retained. -/
structure Company where
  company_id : String
  org_id : String
  code : String
  base_url : String
  rib_company_code : String
  allowed_users : List String
  ai_api_key : Option String
deriving DecidableEq, Repr

/-- Python `x or default` on an optional string (`None` and `""` falsy). -/
def strOrD (s : Option String) (d : String) : String :=
  match s with
  | none => d
  | some s => if s = "" then d else s

/-- main.py `_org_from_db`. -/
def orgFromDb (o : DBOrganizationRec) : Organization :=
  { org_id := o.org_id
    name := o.name
    license := { plan := strOrD o.license_plan "monthly", active := o.license_active,
                 current_period_end := o.license_current_period_end }
    features := dictUpdate DEFAULT_SERVICE_FLAGS (o.features_json.getD []) }

/-- main.py `_company_from_db`, restricted to the fields the pydantic
`Company` model keeps (the computed license/features are dropped by the
model and never read downstream in the login path). `allowed_users` applies
the source's normalisation: drop entries whose strip is empty, then
strip-and-lowercase each one. -/
def companyFromDb (c : DBCompanyRec) : Company :=
  { company_id := c.company_id
    org_id := c.org_id
    code := c.code
    base_url := c.base_url
    rib_company_code := c.rib_company_code
    allowed_users :=
      ((c.allowed_users_parsed.getD []).filter (fun u => pyStrip u ≠ "")).map
        (fun u => pyLower (pyStrip u))
    ai_api_key := c.ai_api_key }

/-- main.py `_get_org_company_by_code`: SQL inner join of organizations and
companies on `org_id`, filtered by exact equality on `DBCompany.code`
(the column carries SQLite's default binary collation, so the comparison is
case-sensitive). -/
def getOrgCompanyByCode (db : DB) (code : String) :
    Option (DBOrganizationRec × DBCompanyRec) :=
  match db.companies.find? (fun c => c.code = code) with
  | none => none
  | some c =>
    match db.orgs.find? (fun o => o.org_id = c.org_id) with
    | none => none
    | some o => some (o, c)

/-- storage.py `get_org_and_company_by_code`: in-memory lookup through the
`COMPANY_BY_CODE` index, which is keyed by `code.lower()`.  (Not used by the
login route, which queries the relational directory instead.) -/
def storageGetOrgAndCompanyByCode (companies : List Company) (code : String) :
    Option Company :=
  companies.find? (fun c => pyLower c.code = pyLower code)

/-! ### Login (main.py `login` route) -/

/-- `Char` list prefix test (`==` on each aligned character). -/
def listHasPrefix : List Char → List Char → Bool
  | [], _ => true
  | _ :: _, [] => false
  | a :: as, b :: bs => a = b && listHasPrefix as bs

/-- `Char` list infix test. -/
def listHasInfix (pat : List Char) : List Char → Bool
  | [] => pat.isEmpty
  | c :: rest => listHasPrefix pat (c :: rest) || listHasInfix pat rest

/-- Python's `pat in s` substring test. -/
def strContains (s pat : String) : Bool :=
  listHasInfix pat.data s.data

/-- The lowered remote-failure text signals an invalid grant / username /
password (first rule of `_rib_login_error`). -/
def invalidCredSignal (text : String) : Bool :=
  let lowered := pyLower text
  strContains lowered "invalid_grant" || strContains lowered "invalid username" ||
    strContains lowered "invalid password"

/-- The lowered remote-failure text signals the scheduled-access-window
maintenance notice (second rule of `_rib_login_error`). -/
def maintenanceSignal (text : String) : Bool :=
  strContains (pyLower text) "scheduled environment access notice"

/-- The three fixed user-facing messages of `_rib_login_error`. -/
def RIB_INVALID_CRED_MSG : String :=
  "RIB login failed: Invalid username/password. Please try again."

def RIB_MAINTENANCE_MSG : String :=
  "RIB login failed: The target RIB 4.0 environment is currently not available outside its scheduled access window. Please try again later or contact your RIB implementation manager."

def RIB_GENERIC_MSG : String :=
  "RIB login failed: We couldn't sign you in to the RIB server right now. Please verify your credentials and try again, or contact support if the issue persists."

/-- main.py `_rib_login_error`: classify a remote login failure by substring
matching on its (response body or `str(exc)`) text, top to bottom. -/
def ribLoginError (text : String) : HTTPError :=
  if invalidCredSignal text then ⟨401, RIB_INVALID_CRED_MSG⟩
  else if maintenanceSignal text then ⟨503, RIB_MAINTENANCE_MSG⟩
  else ⟨401, RIB_GENERIC_MSG⟩

/-- The remote login result (`rib_client.Auth.login`), with the decoded JWT
payload of `access_token` (the output of main.py `_jwt_payload`) carried
alongside so `_display_from_jwt`'s claim selection can be embedded without a
base64/JSON decoder. -/
structure RibSess where
  access_token : String
  exp_ts : Int
  secure_client_role : String
  payload : List (String × String)
deriving DecidableEq, Repr

/-- main.py `_display_from_jwt`, applied to the already-decoded JWT payload:
first usable claim among given_name, name (first whitespace token only),
unique_name, preferred_username, email, sub; otherwise the fallback. -/
def displayFromPayload (pl : List (String × String)) (fallback : String) : String :=
  let keys := ["given_name", "name", "unique_name", "preferred_username", "email", "sub"]
  let pick := keys.findSome? (fun k =>
    match pl.find? (fun p => p.1 = k) with
    | some p =>
      if pyStrip p.2 ≠ "" then
        some (if k = "name" && p.2.data.contains ' ' then
                pyStrip ⟨p.2.data.takeWhile (fun c => c ≠ ' ')⟩
              else pyStrip p.2)
      else none
    | none => none)
  pick.getD fallback

/-- main.py: `ADMIN_ACCESS_CODE = "Admin"`. -/
def ADMIN_ACCESS_CODE : String := "Admin"

/-- The admin credential configuration read from the environment
(`ADMIN_USERNAME`, `ADMIN_PASSWORD`; unset is `none`). -/
structure AdminCfg where
  admin_username : Option String
  admin_password : Option String
deriving DecidableEq, Repr

/-- The login request body after FastAPI validation. -/
structure LoginRequest where
  company_code : String
  username : String
  password : String
deriving DecidableEq, Repr

/-- The admin branch of main.py `login` (company code already matched the
admin access code; `username` is the stripped username). -/
def adminLogin (cfg : AdminCfg) (username password : String) (now : Int)
    (newToken : String) : Except HTTPError Session :=
  if optStrFalsy cfg.admin_username || optStrFalsy cfg.admin_password then
    .error ⟨500, "Admin credentials not configured"⟩
  else if username ≠ cfg.admin_username.getD "" || password ≠ cfg.admin_password.getD "" then
    .error ⟨401, "Invalid admin credentials"⟩
  else
    .ok { token := newToken
          user_id := "admin:" ++ username
          username := username
          display_name := "ribooster admin"
          is_admin := true
          org_id := none
          company_id := none
          created_at := now
          expires_at := now + 8 * 3600
          rib_session := none }

/-- The tenant branch of main.py `login`: directory lookup, allow-list
check, company-level license check, then the delegated remote login.
`rib` is the outcome of `auth.login(username, password)`: `.error text`
carries the failure's textual signal handed to `_rib_login_error`.
(The passive `license_active = False` write-back on expiry detection only
feeds the subsequent re-raise and is not returned.) -/
def tenantLogin (db : DB) (company_code username _password : String) (now : Int)
    (newToken : String) (rib : Except String RibSess) : Except HTTPError Session :=
  match getOrgCompanyByCode db company_code with
  | none => .error ⟨404, "Unknown company code"⟩
  | some (org_row, company_row) =>
    let org := orgFromDb org_row
    let company := companyFromDb company_row
    if company.allowed_users ≠ [] &&
        !(company.allowed_users.map pyLower).contains (pyLower username) then
      .error ⟨403, "User is not allowed for this company code"⟩
    else
      let comp_row? := db.companies.find? (fun c => c.company_id = company.company_id)
      let lic_active₀ : Bool := match comp_row? with
        | some c => c.license_active
        | none => true
      let lic_end : Option Int := match comp_row? with
        | some c => c.license_current_period_end
        | none => none
      let lic_expired : Bool := match lic_end with
        | some e => intTruthy e && decide (e < now)
        | none => false
      let lic_active : Bool := if lic_expired then false else lic_active₀
      if !lic_active || lic_expired then
        .error ⟨403, "License inactive or expired"⟩
      else
        match rib with
        | .error txt => .error (ribLoginError txt)
        | .ok r =>
          let display_name := displayFromPayload r.payload username
          .ok { token := newToken
                user_id := org.org_id ++ ":" ++ username
                username := username
                display_name := display_name
                is_admin := false
                org_id := some org.org_id
                company_id := some company.company_id
                created_at := now
                expires_at := now + 8 * 3600
                rib_session := some { access_token := r.access_token
                                      exp_ts := r.exp_ts
                                      secure_client_role := r.secure_client_role
                                      host := company.base_url
                                      company_code := company.rib_company_code } }

/-- main.py `login` route: strip the inputs, reject missing fields, then
dispatch to the admin realm (access code compared case-insensitively) or the
tenant realm.  `newToken` stands for the freshly generated `uuid4` pair and
`rib` for the remote identity exchange's outcome. -/
def login (db : DB) (cfg : AdminCfg) (payload : LoginRequest) (now : Int)
    (newToken : String) (rib : Except String RibSess) : Except HTTPError Session :=
  let company_code := pyStrip payload.company_code
  let username := pyStrip payload.username
  let password := payload.password
  if company_code = "" || username = "" || password = "" then
    .error ⟨400, "Missing fields"⟩
  else if pyLower company_code = pyLower ADMIN_ACCESS_CODE then
    adminLogin cfg username password now newToken
  else
    tenantLogin db company_code username password now newToken rib

/-! ### Feature/license gate (main.py `_ensure_feature`) -/

/-- Replace a company row (by primary key) in the directory, as the ORM
commit of `comp.license_active = False` does. -/
def dbSetCompany (db : DB) (c : DBCompanyRec) : DB :=
  { db with companies := db.companies.map (fun x => if x.company_id = c.company_id then c else x) }

/-- main.py `_ensure_feature`: company-level feature override check (only
when the company's override map is non-empty), company-level license check
(flipping the stored `license_active` flag on detected expiry before
re-raising), then the org-level flag resolved as defaults overlaid with the
org's overrides.  Returns the verdict together with the directory state. -/
def ensureFeature (db : DB) (ctx : SessionCtx) (featureKey : String) (now : Int) :
    Except HTTPError Unit × DB :=
  if optStrFalsy ctx.org_id then (.error ⟨400, "Org missing"⟩, db)
  else
    let comp? : Option DBCompanyRec :=
      if optStrFalsy ctx.company_id then none
      else db.companies.find? (fun c => ctx.company_id = some c.company_id)
    let company_features : FeatDict :=
      match comp? with
      | some c => (c.features_json).getD []
      | none => []
    if company_features ≠ [] && !dictGetD company_features featureKey false then
      (.error ⟨403, "Feature not enabled for company"⟩, db)
    else
      match comp? with
      | none => (.error ⟨400, "Company not found"⟩, db)
      | some comp =>
        let lic_expired : Bool := match comp.license_current_period_end with
          | some e => intTruthy e && decide (e < now)
          | none => false
        let db₁ := if lic_expired then dbSetCompany db { comp with license_active := false } else db
        let license_active : Bool := if lic_expired then false else comp.license_active
        if !license_active then
          (.error ⟨403, "Company code license inactive"⟩, db₁)
        else
          match db₁.orgs.find? (fun o => ctx.org_id = some o.org_id) with
          | none => (.error ⟨400, "Org not found"⟩, db₁)
          | some org =>
            let feats := dictUpdate DEFAULT_SERVICE_FLAGS (org.features_json.getD [])
            if !dictGetD feats featureKey false then
              (.error ⟨403, "Feature not enabled for org"⟩, db₁)
            else
              (.ok (), db₁)

/-! ### Concrete fixtures used by counterexamples and witnesses -/

deriving instance DecidableEq for Except

/-- A stored tenant session expiring at time 1000. -/
def sessEx : Session :=
  { token := "t", user_id := "org1:alice", org_id := some "org1",
    company_id := some "cmp1", username := "alice", display_name := "Alice",
    is_admin := false, rib_session := none, created_at := 0, expires_at := 1000 }

/-- A store holding exactly `sessEx` under token "t". -/
def storeEx : SessionStore := fun t => if t = "t" then some sessEx else none

/-- A longer-lived variant of `sessEx` (expires at 10000). -/
def sessLong : Session := { sessEx with expires_at := 10000 }

/-- A store holding exactly `sessLong` under token "t". -/
def storeLong : SessionStore := fun t => if t = "t" then some sessLong else none

/-- The empty session store. -/
def emptyStore : SessionStore := fun _ => none

/-- An organization row whose overrides disable feature "f". -/
def orgEx : DBOrganizationRec :=
  { org_id := "org1", name := "Acme Org", license_plan := some "yearly",
    license_active := true, license_current_period_end := 2000,
    features_json := some [("f", false)] }

/-- A company row with allow-list `["alice"]` and an inactive, expired
license. -/
def compEx : DBCompanyRec :=
  { company_id := "cmp1", org_id := "org1", name := "ACME-1", code := "ACME-1",
    base_url := "https://x", rib_company_code := "999",
    allowed_users_parsed := some ["alice"], ai_api_key := none,
    features_json := some [("f", true)],
    license_plan := some "monthly", license_active := false,
    license_current_period_end := some 10 }

/-- `compEx` with an active, unexpired license. -/
def compOkLic : DBCompanyRec :=
  { compEx with license_active := true, license_current_period_end := some 5000 }

/-- Directory with `orgEx` and the expired-license company. -/
def dbEx : DB := { orgs := [orgEx], companies := [compEx] }

/-- Directory with `orgEx` and the valid-license company. -/
def dbOk : DB := { orgs := [orgEx], companies := [compOkLic] }

/-- `compEx` as the real db.py schema can represent it: no license columns,
so the `getattr` reads yield their defaults. -/
def compReal : DBCompanyRec :=
  { compEx with
    license_plan := none
    license_active := true
    license_current_period_end := none }

/-- Directory with `orgEx` and the schema-representable company. -/
def dbReal : DB := { orgs := [orgEx], companies := [compReal] }

/-- Configured admin credentials root/pw. -/
def cfgEx : AdminCfg := { admin_username := some "root", admin_password := some "pw" }

/-- The tenant-user request context matching `sessEx`. -/
def ctxEx : SessionCtx := ctxOfSession sessEx

/-! ### C6 — expired sessions: delete on lookup, idempotently unresolvable -/

/-- C6: `validate` on a session whose `expires_at` has already passed fails
with Unauthorized ("Session expired") and deletes the session as a side
effect, and on the resulting store every later `validate` of the same token
fails with Unauthorized ("Invalid session") without further state change. -/
theorem validate_expired_deletes_and_stays_invalid
    (store : SessionStore) (tok : String) (s : Session) (now : Int)
    (hs : store tok = some s) (hnz : s.expires_at ≠ 0) (hlt : s.expires_at < now) :
    sessionFromToken store tok now =
      (.error ⟨401, "Session expired"⟩, delete_session store tok) ∧
    ∀ now', sessionFromToken (delete_session store tok) tok now' =
      (.error ⟨401, "Invalid session"⟩, delete_session store tok) := by
  constructor
  · unfold sessionFromToken get_session
    rw [hs]
    simp [intTruthy, hnz, hlt]
  · intro now'
    unfold sessionFromToken get_session delete_session
    simp

/-- Witness for C6 at a concrete expired session. -/
theorem validate_expired_deletes_and_stays_invalid_witness :
    sessionFromToken storeEx "t" 2000 =
      (.error ⟨401, "Session expired"⟩, delete_session storeEx "t") ∧
    ∀ now', sessionFromToken (delete_session storeEx "t") "t" now' =
      (.error ⟨401, "Invalid session"⟩, delete_session storeEx "t") :=
  validate_expired_deletes_and_stays_invalid storeEx "t" sessEx 2000
    (by decide) (by decide) (by decide)

/-! ### C7 — sliding refresh -/

/-- C7: for a non-expired session, validating with remaining time-to-live
below the 20-minute threshold resets `expires_at` to `now + TTL` and
persists the update; with remaining time-to-live at or above the threshold
the store (and hence `expires_at`) is left unchanged. -/
theorem validate_sliding_refresh
    (store : SessionStore) (tok : String) (s : Session) (now : Int)
    (hs : store tok = some s) (hnz : s.expires_at ≠ 0) (hle : now ≤ s.expires_at) :
    (s.expires_at - now < REFRESH_THRESHOLD →
      sessionFromToken store tok now =
        (.ok (ctxOfSession s),
         save_session store { s with expires_at := now + SESSION_TTL })) ∧
    (REFRESH_THRESHOLD ≤ s.expires_at - now →
      sessionFromToken store tok now = (.ok (ctxOfSession s), store)) := by
  have hnotlt : ¬ s.expires_at < now := not_lt.mpr hle
  constructor
  · intro hunder
    unfold sessionFromToken get_session
    rw [hs]
    simp [intTruthy, hnz, hnotlt, hunder]
  · intro hover
    unfold sessionFromToken get_session
    rw [hs]
    simp [intTruthy, hnz, hnotlt, not_lt.mpr hover]

/-- Witness for C7: at 500 seconds remaining (5min < 20min) the expiry is
reset to `now + TTL`; at 9900 seconds remaining it is untouched. -/
theorem validate_sliding_refresh_witness :
    sessionFromToken storeEx "t" 500 =
      (.ok (ctxOfSession sessEx),
       save_session storeEx { sessEx with expires_at := 500 + SESSION_TTL }) ∧
    sessionFromToken storeLong "t" 100 = (.ok (ctxOfSession sessLong), storeLong) :=
  ⟨(validate_sliding_refresh storeEx "t" sessEx 500
      (by decide) (by decide) (by decide)).1 (by decide),
   (validate_sliding_refresh storeLong "t" sessLong 100
      (by decide) (by decide) (by decide)).2 (by decide)⟩

/-! ### C9 — successful validation mutates at most `expires_at` -/

/-- C9: a successful `validate` returns the session's fields unchanged
(the returned ctx is exactly `ctxOfSession s`), leaves every other token's
entry untouched, and whatever it stores under the validated token differs
from the original session in at most `expires_at`: token, user_id, username,
display_name, is_admin, org_id, company_id, the delegated credential and
created_at are all preserved. -/
theorem validate_frame
    (store : SessionStore) (tok : String) (s : Session) (now : Int)
    (hs : store tok = some s) (htok : s.token = tok)
    (hne : ¬(s.expires_at ≠ 0 ∧ s.expires_at < now)) :
    ∃ store', sessionFromToken store tok now = (.ok (ctxOfSession s), store') ∧
      (∀ t, t ≠ tok → store' t = store t) ∧
      (∀ s', store' tok = some s' →
        s'.token = s.token ∧ s'.user_id = s.user_id ∧ s'.username = s.username ∧
        s'.display_name = s.display_name ∧ s'.is_admin = s.is_admin ∧
        s'.org_id = s.org_id ∧ s'.company_id = s.company_id ∧
        s'.rib_session = s.rib_session ∧ s'.created_at = s.created_at) := by
  have hcond : (intTruthy s.expires_at && decide (s.expires_at < now)) = false := by
    rcases Decidable.em (s.expires_at = 0) with h | h
    · simp [intTruthy, h]
    · have hnl : ¬ s.expires_at < now := fun hlt => hne ⟨h, hlt⟩
      simp [intTruthy, hnl]
  unfold sessionFromToken get_session
  rw [hs]
  simp only [hcond, Bool.false_eq_true, if_false]
  by_cases hr :
      (if intTruthy s.expires_at then s.expires_at - now else SESSION_TTL) < REFRESH_THRESHOLD
  · refine ⟨save_session store { s with expires_at := now + SESSION_TTL }, by simp [hr], ?_, ?_⟩
    · intro t ht
      unfold save_session
      simp [htok, ht]
    · intro s' hmem
      unfold save_session at hmem
      have hc : tok = ({ s with expires_at := now + SESSION_TTL } : Session).token :=
        htok.symm
      rw [if_pos hc] at hmem
      cases hmem
      simp
  · refine ⟨store, by simp [hr], fun t _ => rfl, ?_⟩
    intro s' hmem
    rw [hs] at hmem
    cases hmem
    simp

/-- Witness for C9 at a concrete valid session. -/
theorem validate_frame_witness :
    ∃ store', sessionFromToken storeEx "t" 500 = (.ok (ctxOfSession sessEx), store') ∧
      (∀ t, t ≠ "t" → store' t = storeEx t) ∧
      (∀ s', store' "t" = some s' →
        s'.token = sessEx.token ∧ s'.user_id = sessEx.user_id ∧
        s'.username = sessEx.username ∧ s'.display_name = sessEx.display_name ∧
        s'.is_admin = sessEx.is_admin ∧ s'.org_id = sessEx.org_id ∧
        s'.company_id = sessEx.company_id ∧ s'.rib_session = sessEx.rib_session ∧
        s'.created_at = sessEx.created_at) :=
  validate_frame storeEx "t" sessEx 500 (by decide) (by decide) (by decide)

/-! ### C10 — strict expiry boundary -/

/-- C10: validating at the exact instant `now = expires_at` neither fails
nor deletes the session (expiry requires `expires_at` strictly less than
now); the zero remaining time-to-live is below the refresh threshold, so
`expires_at` is reset to `now + TTL`, persisted, and the session context is
returned. -/
theorem validate_at_exact_expiry
    (store : SessionStore) (tok : String) (s : Session) (now : Int)
    (hs : store tok = some s) (htok : s.token = tok)
    (hexp : s.expires_at = now) (hnz : s.expires_at ≠ 0) :
    sessionFromToken store tok now =
      (.ok (ctxOfSession s),
       save_session store { s with expires_at := now + SESSION_TTL }) ∧
    (sessionFromToken store tok now).2 tok =
      some { s with expires_at := now + SESSION_TTL } := by
  have hnotlt : ¬ s.expires_at < now := by rw [hexp]; exact lt_irrefl now
  have hunder : s.expires_at - now < REFRESH_THRESHOLD := by
    rw [hexp]; simp [REFRESH_THRESHOLD]
  have h1 : sessionFromToken store tok now =
      (.ok (ctxOfSession s),
       save_session store { s with expires_at := now + SESSION_TTL }) := by
    unfold sessionFromToken get_session
    rw [hs]
    simp [intTruthy, hnz, hnotlt, hunder]
  refine ⟨h1, ?_⟩
  rw [h1]
  unfold save_session
  simp [htok]

/-- Witness for C10: a session expiring exactly at the validation instant is
refreshed, not rejected. -/
theorem validate_at_exact_expiry_witness :
    sessionFromToken storeEx "t" 1000 =
      (.ok (ctxOfSession sessEx),
       save_session storeEx { sessEx with expires_at := 1000 + SESSION_TTL }) ∧
    (sessionFromToken storeEx "t" 1000).2 "t" =
      some { sessEx with expires_at := 1000 + SESSION_TTL } :=
  validate_at_exact_expiry storeEx "t" sessEx 1000
    (by decide) (by decide) (by decide) (by decide)

/-! ### C3 — logout

The route `logout` depends on `require_session`, so a token that does not
resolve to a live session is rejected with 401 before any revocation; the
"always 200" behaviour holds only for valid tokens.  The storage-layer
delete is idempotent. -/

/-- C3 as stated is false: presenting an unknown token to `logout` yields
Unauthorized ("Invalid session"), not 200. -/
theorem logout_unknown_token_counterexample :
    (logout emptyStore (some "Bearer zzz") 0).1 = .error ⟨401, "Invalid session"⟩ ∧
    (logout emptyStore (some "Bearer zzz") 0).1 ≠ .ok () := by
  decide

/-- C3 amended: `logout` returns 200 exactly when the presented token
resolves to a known, non-expired session, in which case the session is
revoked (the token no longer resolves); unknown, expired or already-revoked
tokens are rejected with 401 by the session dependency before revocation.
At the storage layer `delete_session` is an idempotent delete and absence of
the token is not an error (it leaves the store pointwise unchanged). -/
theorem logout_valid_token_revokes
    (store : SessionStore) (h tok : String) (s : Session) (now : Int)
    (hparse : pyWsSplit h = ["Bearer", tok])
    (hs : store tok = some s) (htok : s.token = tok)
    (hne : ¬(s.expires_at ≠ 0 ∧ s.expires_at < now)) :
    (logout store (some h) now).1 = .ok () ∧
    (logout store (some h) now).2 tok = none ∧
    (∀ st : SessionStore, ∀ t u,
      delete_session (delete_session st t) t u = delete_session st t u) ∧
    (∀ st : SessionStore, ∀ t, st t = none → ∀ u, delete_session st t u = st u) := by
  have hh : h ≠ "" := by
    intro e
    rw [e] at hparse
    have hempty : pyWsSplit "" = [] := rfl
    rw [hempty] at hparse
    simp at hparse
  have hlow : pyLower "Bearer" = "bearer" := by decide
  have hreq : require_session store (some h) now = sessionFromToken store tok now := by
    unfold require_session
    simp [hparse, hh, hlow, List.getD]
  have hcond : (intTruthy s.expires_at && decide (s.expires_at < now)) = false := by
    rcases Decidable.em (s.expires_at = 0) with h0 | h0
    · simp [intTruthy, h0]
    · have hnl : ¬ s.expires_at < now := fun hlt => hne ⟨h0, hlt⟩
      simp [intTruthy, hnl]
  obtain ⟨store', hrun⟩ :
      ∃ store', sessionFromToken store tok now = (.ok (ctxOfSession s), store') := by
    unfold sessionFromToken get_session
    rw [hs]
    simp only [hcond, Bool.false_eq_true, if_false]
    exact ⟨_, rfl⟩
  have hout : logout store (some h) now =
      (.ok (), delete_session store' (ctxOfSession s).token) := by
    unfold logout
    rw [hreq, hrun]
  refine ⟨by rw [hout], ?_, ?_, ?_⟩
  · rw [hout]
    unfold delete_session ctxOfSession
    simp [htok]
  · intro st t u
    unfold delete_session
    by_cases hu : u = t <;> simp [hu]
  · intro st t hnone u
    unfold delete_session
    by_cases hu : u = t <;> simp [hu, hnone]

/-- Witness for the amended C3 at a concrete live session. -/
theorem logout_valid_token_revokes_witness :
    (logout storeEx (some "Bearer t") 500).1 = .ok () ∧
    (logout storeEx (some "Bearer t") 500).2 "t" = none ∧
    (∀ st : SessionStore, ∀ t u,
      delete_session (delete_session st t) t u = delete_session st t u) ∧
    (∀ st : SessionStore, ∀ t, st t = none → ∀ u, delete_session st t u = st u) :=
  logout_valid_token_revokes storeEx "Bearer t" "t" sessEx 500
    (by decide) (by decide) (by decide) (by decide)

/-! ### C1 — admin login (code bug)

models.py declares `Session.org_id: str` (required, non-null), but the
admin branch of `login` (main.py 519-530) constructs the session with
`org_id=None`.  pydantic v2 rejects that construction with a
`ValidationError` (an HTTP 500), so the program never returns the admin
session the claim and the spec describe.  The theorem evaluates the
embedded branch at a valid admin credential pair: the value it attempts to
build has `org_id = none` and fails the model's validation, while the
invalid-pair path (which fails before any model construction) does return
the fixed 401 error. -/

/-- The session value the admin branch attempts to construct for the valid
pair root/pw at time 1000 with token "tok": note `org_id = none`. -/
def adminAttemptSession : Session :=
  { token := "tok", user_id := "admin:root", org_id := none,
    company_id := none, username := "root",
    display_name := "ribooster admin", is_admin := true,
    rib_session := none, created_at := 1000, expires_at := 1000 + 8 * 3600 }

/-- C1 (code bug): at a valid admin login the admin branch builds exactly
`adminAttemptSession`, whose `org_id = none` is rejected by the pydantic
`Session` model (`org_id: str`, required non-null) — the real program
raises a ValidationError (500) here instead of creating and returning the
session the claim describes; an invalid pair still fails with the fixed
Unauthorized error before any model construction. -/
theorem admin_login_org_id_validation_bug :
    login dbEx cfgEx ⟨"Admin", "root", "pw"⟩ 1000 "tok" (.error "x") =
      .ok adminAttemptSession ∧
    adminAttemptSession.is_admin = true ∧
    sessionModelAcceptsOrgId adminAttemptSession = false ∧
    login dbEx cfgEx ⟨"Admin", "root", "bad"⟩ 1000 "tok" (.error "x") =
      .error ⟨401, "Invalid admin credentials"⟩ := by
  decide

/-! ### C2 — license gating at tenant login (code bug)

db.py's `DBCompany` declares no license columns, so main.py's company-level
license check at login (lines 553-563) reads only `getattr` defaults
(`license_active` True, period end absent) and its Forbidden
"License inactive or expired" branch is unreachable at every representable
directory state; the admin endpoints that would set company license state
contradict the schema (`DBCompany(license_plan=...)` is an invalid keyword).
In addition the allow-list check (544-551) runs before the license check in
source order. -/

/-- The admin branch never produces the tenant license error. -/
theorem adminLogin_no_license_error (cfg : AdminCfg) (username password : String)
    (now : Int) (newToken : String) :
    adminLogin cfg username password now newToken ≠
      .error ⟨403, "License inactive or expired"⟩ := by
  unfold adminLogin
  split_ifs <;> simp

/-- The remote-failure classifier never produces the tenant license error. -/
theorem ribLoginError_no_license_error (txt : String) :
    ribLoginError txt ≠ ⟨403, "License inactive or expired"⟩ := by
  unfold ribLoginError
  split_ifs <;> decide

/-- C2 (code bug): over every directory whose company rows are
representable in the real schema (license attributes at their `getattr`
defaults, since db.py's `DBCompany` has no license columns), `login` can
never fail with the Forbidden "License inactive or expired" error — the
license gate the claim relies on is dead code, and a user outside a
non-empty allow-list receives the user-not-allowed error instead (the
allow-list check also precedes the license check in source order). -/
theorem tenant_license_gate_unreachable
    (db : DB) (cfg : AdminCfg) (payload : LoginRequest) (now : Int)
    (newToken : String) (rib : Except String RibSess)
    (hrep : ∀ c ∈ db.companies, dbCompanyRepresentable c = true) :
    login db cfg payload now newToken rib ≠
      .error ⟨403, "License inactive or expired"⟩ := by
  unfold login
  dsimp only
  split_ifs with h0 h1
  · decide
  · exact adminLogin_no_license_error cfg _ _ now newToken
  · unfold tenantLogin
    cases hfind : getOrgCompanyByCode db (pyStrip payload.company_code) with
    | none => simp
    | some oc =>
      obtain ⟨orow, crow⟩ := oc
      dsimp only
      by_cases hallow : ((companyFromDb crow).allowed_users ≠ [] &&
          !((companyFromDb crow).allowed_users.map pyLower).contains
            (pyLower (pyStrip payload.username))) = true
      · rw [if_pos hallow]
        decide
      · rw [if_neg hallow]
        cases hrow : db.companies.find?
            (fun c => c.company_id = (companyFromDb crow).company_id) with
        | none =>
          cases rib with
          | error txt =>
            simp only [hrow]
            simp
            exact ribLoginError_no_license_error txt
          | ok r =>
            simp [hrow]
        | some c' =>
          have h1 : dbCompanyRepresentable c' = true :=
            hrep c' (List.mem_of_find?_eq_some hrow)
          unfold dbCompanyRepresentable at h1
          simp only [Bool.and_eq_true, Option.isNone_iff_eq_none] at h1
          obtain ⟨⟨-, hact⟩, hend⟩ := h1
          cases rib with
          | error txt =>
            simp only [hrow]
            simp [hact, hend]
            exact ribLoginError_no_license_error txt
          | ok r =>
            simp [hrow, hact, hend]

/-- Witness for C2 at the failing input: company "ACME-1" as the real
schema stores it (no license state), user "bob" outside the allow-list —
the result is the user-not-allowed error, and by the theorem it can never
be the license error. -/
theorem tenant_license_gate_unreachable_witness :
    login dbReal cfgEx ⟨"ACME-1", "bob", "pw"⟩ 1000 "tok" (.error "x") ≠
      .error ⟨403, "License inactive or expired"⟩ ∧
    login dbReal cfgEx ⟨"ACME-1", "bob", "pw"⟩ 1000 "tok" (.error "x") =
      .error ⟨403, "User is not allowed for this company code"⟩ :=
  ⟨tenant_license_gate_unreachable dbReal cfgEx ⟨"ACME-1", "bob", "pw"⟩ 1000 "tok"
      (.error "x") (by decide),
   by decide⟩

/-! ### C5 — login-code matching case-sensitivity

The admin access code is compared with `.lower()` on both sides, but the
tenant lookup `_get_org_company_by_code` filters on SQL equality over
`DBCompany.code` (binary collation), which is case-sensitive. -/

/-- C5 as stated is false: with company code "ACME-1" stored, logging in
with the case variant "acme-1" fails NotFound, while the exact code does
not. -/
theorem tenant_code_case_counterexample :
    login dbEx cfgEx ⟨"acme-1", "alice", "pw"⟩ 1000 "tok" (.error "x") =
      .error ⟨404, "Unknown company code"⟩ ∧
    login dbEx cfgEx ⟨"ACME-1", "alice", "pw"⟩ 1000 "tok" (.error "x") ≠
      .error ⟨404, "Unknown company code"⟩ := by
  decide

/-- C5 amended: the admin access code is matched case-insensitively (any
case variant dispatches to the admin branch), but a tenant company code is
matched exactly: the directory lookup only ever returns a company whose
stored code equals the supplied code, and if no company matches the
(stripped) code exactly, tenant login fails NotFound even when a case
variant is stored. -/
theorem login_code_matching
    (db : DB) (cfg : AdminCfg) (payload : LoginRequest) (now : Int)
    (newToken : String) (rib : Except String RibSess) :
    (∀ code orow crow, getOrgCompanyByCode db code = some (orow, crow) →
      crow.code = code) ∧
    (pyStrip payload.company_code ≠ "" → pyStrip payload.username ≠ "" →
      payload.password ≠ "" →
      pyLower (pyStrip payload.company_code) ≠ pyLower ADMIN_ACCESS_CODE →
      getOrgCompanyByCode db (pyStrip payload.company_code) = none →
      login db cfg payload now newToken rib = .error ⟨404, "Unknown company code"⟩) ∧
    (pyLower (pyStrip payload.company_code) = pyLower ADMIN_ACCESS_CODE →
      pyStrip payload.username ≠ "" → payload.password ≠ "" →
      login db cfg payload now newToken rib =
        adminLogin cfg (pyStrip payload.username) payload.password now newToken) := by
  refine ⟨?_, ?_, ?_⟩
  · intro code orow crow hgu
    unfold getOrgCompanyByCode at hgu
    cases hc : db.companies.find? (fun c => c.code = code) with
    | none => rw [hc] at hgu; exact absurd hgu (by simp)
    | some c =>
      rw [hc] at hgu
      dsimp only at hgu
      cases ho : db.orgs.find? (fun o => o.org_id = c.org_id) with
      | none => rw [ho] at hgu; exact absurd hgu (by simp)
      | some o =>
        rw [ho] at hgu
        have hcode := List.find?_some hc
        simp only [decide_eq_true_eq] at hcode
        cases hgu
        exact hcode
  · intro hcc hun hpw hnotadmin hnone
    unfold login
    rw [if_neg (by simp [hcc, hun, hpw]), if_neg hnotadmin]
    unfold tenantLogin
    rw [hnone]
  · intro hcode hun hpw
    have hcc : pyStrip payload.company_code ≠ "" := by
      intro e
      rw [e] at hcode
      exact absurd hcode (by decide)
    unfold login
    rw [if_neg (by simp [hcc, hun, hpw]), if_pos hcode]

/-- Witness for the amended C5 at concrete inputs: the stored code "ACME-1"
is only returned for the exact string, the variant "acme-1" yields
NotFound, and the variant "ADMIN" of the admin code still reaches the admin
branch. -/
theorem login_code_matching_witness :
    compEx.code = "ACME-1" ∧
    login dbEx cfgEx ⟨"acme-1", "alice", "pw"⟩ 1000 "tok" (.error "x") =
      .error ⟨404, "Unknown company code"⟩ ∧
    login dbEx cfgEx ⟨"ADMIN", "root", "pw"⟩ 1000 "tok" (.error "x") =
      adminLogin cfgEx "root" "pw" 1000 "tok" :=
  ⟨(login_code_matching dbEx cfgEx ⟨"acme-1", "alice", "pw"⟩ 1000 "tok"
      (.error "x")).1 "ACME-1" orgEx compEx (by decide),
   (login_code_matching dbEx cfgEx ⟨"acme-1", "alice", "pw"⟩ 1000 "tok"
      (.error "x")).2.1 (by decide) (by decide) (by decide) (by decide) (by decide),
   (login_code_matching dbEx cfgEx ⟨"ADMIN", "root", "pw"⟩ 1000 "tok"
      (.error "x")).2.2 (by decide) (by decide) (by decide)⟩

/-! ### C8 — remote-failure classification -/

/-- C8: when the tenant path reaches the remote login and it fails with
text `txt`, `login` surfaces exactly `ribLoginError txt`, which classifies
by substring signals in a fixed order — invalid-grant/username/password
first (Unauthorized with the explicit invalid-credentials message), then
the scheduled-environment-access-notice phrase (ServiceUnavailable with the
retry-window message), and otherwise Unauthorized with the generic
couldn't-sign-you-in message — and the surfaced detail is always one of
those three fixed constants, never the raw remote text. -/
theorem rib_failure_classification
    (db : DB) (cfg : AdminCfg) (payload : LoginRequest) (now : Int)
    (newToken : String) (txt : String)
    (orow : DBOrganizationRec) (crow : DBCompanyRec)
    (hcc : pyStrip payload.company_code ≠ "")
    (hun : pyStrip payload.username ≠ "") (hpw : payload.password ≠ "")
    (hnotadmin : pyLower (pyStrip payload.company_code) ≠ pyLower ADMIN_ACCESS_CODE)
    (hfound : getOrgCompanyByCode db (pyStrip payload.company_code) = some (orow, crow))
    (hallow : ((companyFromDb crow).allowed_users.map pyLower).contains
        (pyLower (pyStrip payload.username)) = true)
    (hrow : db.companies.find?
        (fun c => c.company_id = (companyFromDb crow).company_id) = some crow)
    (hact : crow.license_active = true)
    (hnexp : (match crow.license_current_period_end with
              | some e => intTruthy e && decide (e < now)
              | none => false) = false) :
    login db cfg payload now newToken (.error txt) = .error (ribLoginError txt) ∧
    (invalidCredSignal txt = true → ribLoginError txt = ⟨401, RIB_INVALID_CRED_MSG⟩) ∧
    (invalidCredSignal txt = false → maintenanceSignal txt = true →
      ribLoginError txt = ⟨503, RIB_MAINTENANCE_MSG⟩) ∧
    (invalidCredSignal txt = false → maintenanceSignal txt = false →
      ribLoginError txt = ⟨401, RIB_GENERIC_MSG⟩) ∧
    (ribLoginError txt = ⟨401, RIB_INVALID_CRED_MSG⟩ ∨
     ribLoginError txt = ⟨503, RIB_MAINTENANCE_MSG⟩ ∨
     ribLoginError txt = ⟨401, RIB_GENERIC_MSG⟩) := by
  refine ⟨?_, ?_, ?_, ?_, ?_⟩
  · unfold login
    rw [if_neg (by simp [hcc, hun, hpw]), if_neg hnotadmin]
    unfold tenantLogin
    rw [hfound]
    dsimp only
    rw [hallow, hrow]
    dsimp only
    rw [hnexp, hact]
    simp
  · intro h1
    unfold ribLoginError
    rw [h1]
    simp
  · intro h1 h2
    unfold ribLoginError
    rw [h1, h2]
    simp
  · intro h1 h2
    unfold ribLoginError
    rw [h1, h2]
    simp
  · unfold ribLoginError
    by_cases h1 : invalidCredSignal txt = true
    · left; rw [h1]; simp
    · have h1' : invalidCredSignal txt = false := by simpa using h1
      by_cases h2 : maintenanceSignal txt = true
      · right; left; rw [h1', h2]; simp
      · have h2' : maintenanceSignal txt = false := by simpa using h2
        right; right; rw [h1', h2']; simp

/-- Witness for C8: the three signal classes at concrete remote texts
(valid tenant gating via `dbOk`). -/
theorem rib_failure_classification_witness :
    login dbOk cfgEx ⟨"ACME-1", "Alice", "pw"⟩ 1000 "tok"
        (.error "400 invalid_grant: bad credentials") =
      .error ⟨401, RIB_INVALID_CRED_MSG⟩ ∧
    login dbOk cfgEx ⟨"ACME-1", "Alice", "pw"⟩ 1000 "tok"
        (.error "Scheduled Environment Access Notice: closed until 06:00") =
      .error ⟨503, RIB_MAINTENANCE_MSG⟩ ∧
    login dbOk cfgEx ⟨"ACME-1", "Alice", "pw"⟩ 1000 "tok"
        (.error "connection timed out") =
      .error ⟨401, RIB_GENERIC_MSG⟩ := by
  refine ⟨?_, ?_, ?_⟩
  · have h := rib_failure_classification dbOk cfgEx ⟨"ACME-1", "Alice", "pw"⟩ 1000
      "tok" "400 invalid_grant: bad credentials" orgEx compOkLic
      (by decide) (by decide) (by decide) (by decide) (by decide) (by decide)
      (by decide) (by decide) (by decide)
    rw [h.1, h.2.1 (by decide)]
  · have h := rib_failure_classification dbOk cfgEx ⟨"ACME-1", "Alice", "pw"⟩ 1000
      "tok" "Scheduled Environment Access Notice: closed until 06:00" orgEx compOkLic
      (by decide) (by decide) (by decide) (by decide) (by decide) (by decide)
      (by decide) (by decide) (by decide)
    rw [h.1, h.2.2.1 (by decide) (by decide)]
  · have h := rib_failure_classification dbOk cfgEx ⟨"ACME-1", "Alice", "pw"⟩ 1000
      "tok" "connection timed out" orgEx compOkLic
      (by decide) (by decide) (by decide) (by decide) (by decide) (by decide)
      (by decide) (by decide) (by decide)
    rw [h.1, h.2.2.2.1 (by decide) (by decide)]

/-! ### C4 — feature flag resolution in `_ensure_feature`

The source applies the org-level flags ("org feature flags still apply")
after the company-level check, so a feature enabled at company level but
disabled at org level is still rejected: the company does not win ties. -/

/-- `orgEx` with feature "f" enabled at org level. -/
def orgOn : DBOrganizationRec := { orgEx with features_json := some [("f", true)] }

/-- Directory where both org and company enable feature "f" and the
license is valid. -/
def dbOn : DB := { orgs := [orgOn], companies := [compOkLic] }

/-- C4 as stated is false: with a valid license, feature "f" explicitly
enabled at company level but disabled at org level, `ensureFeature` fails
with the feature-gate Forbidden error instead of succeeding. -/
theorem ensure_feature_company_wins_counterexample :
    (ensureFeature dbOk ctxEx "f" 1000).1 =
      .error ⟨403, "Feature not enabled for org"⟩ ∧
    (ensureFeature dbOk ctxEx "f" 1000).1 ≠ .ok () := by
  decide

/-- C4 amended: `ensureFeature` combines the two levels conjunctively, not
by overlay with company precedence: under a valid company license, with the
session's company and org resolvable, the gate passes iff (the company's
override map is empty or explicitly enables the key) AND the org-level flag
— system defaults overlaid with org overrides — enables the key.  In
particular a company-level `true` cannot override an org-level `false`. -/
theorem ensure_feature_resolution
    (db : DB) (ctx : SessionCtx) (key : String) (now : Int)
    (comp : DBCompanyRec) (org : DBOrganizationRec)
    (horgid : optStrFalsy ctx.org_id = false)
    (hcompid : optStrFalsy ctx.company_id = false)
    (hcomp : db.companies.find? (fun c => ctx.company_id = some c.company_id) = some comp)
    (horg : db.orgs.find? (fun o => ctx.org_id = some o.org_id) = some org)
    (hact : comp.license_active = true)
    (hnexp : (match comp.license_current_period_end with
              | some e => intTruthy e && decide (e < now)
              | none => false) = false) :
    (ensureFeature db ctx key now).1 = .ok () ↔
      ((comp.features_json.getD [] = [] ∨
        dictGetD (comp.features_json.getD []) key false = true) ∧
       dictGetD (dictUpdate DEFAULT_SERVICE_FLAGS (org.features_json.getD [])) key false = true) := by
  unfold ensureFeature
  rw [horgid]
  simp only [Bool.false_eq_true, if_false]
  rw [hcompid]
  simp only [Bool.false_eq_true, if_false, hcomp]
  by_cases hcf : (comp.features_json.getD [] ≠ [] &&
      !dictGetD (comp.features_json.getD []) key false) = true
  · rw [if_pos hcf]
    simp only [Bool.and_eq_true, Bool.not_eq_true', decide_eq_true_eq] at hcf
    simp [hcf.1, hcf.2]
  · rw [if_neg hcf]
    simp only [Bool.and_eq_true, Bool.not_eq_true', decide_eq_true_eq, not_and] at hcf
    rw [hnexp]
    rw [hact]
    simp only [Bool.not_true, Bool.false_eq_true, if_false, horg]
    by_cases hof : dictGetD (dictUpdate DEFAULT_SERVICE_FLAGS (org.features_json.getD [])) key false = true
    · rw [if_neg (by rw [hof]; simp)]
      constructor
      · intro _
        refine ⟨?_, hof⟩
        by_cases hce : comp.features_json.getD [] = []
        · exact Or.inl hce
        · have h3 := hcf hce
          exact Or.inr (by simpa using h3)
      · intro _
        rfl
    · have hof' : dictGetD (dictUpdate DEFAULT_SERVICE_FLAGS (org.features_json.getD [])) key false = false := by
        simpa using hof
      rw [if_pos (by rw [hof']; simp)]
      simp [hof']

/-- Witness for the amended C4: with "f" enabled at both levels the gate
passes (via the right-to-left direction of the resolution theorem). -/
theorem ensure_feature_resolution_witness :
    (ensureFeature dbOn ctxEx "f" 1000).1 = .ok () :=
  (ensure_feature_resolution dbOn ctxEx "f" 1000 compOkLic orgOn
      (by decide) (by decide) (by decide) (by decide) (by decide) (by decide)).mpr
    (by decide)

end Ribooster
